import Mathlib

/-!
Shallow embedding of the drone infrastructure-inspection scripts
(`live_detection.py`, `video_detection_live.py`, `src/drone_controller.py`,
`src/crack_detector.py`).

Images are opaque tokens (`Image := Nat`); a Python `img.copy()` produces a
raster equal to the original, so copying is the identity on tokens.
Decimal float literals of the source (`0.05`, `0.5`, ...) are embedded as
exact rationals.  Side-effecting calls are embedded as emitted `Act`
values, so ordering claims become claims about action traces.
-/

/-- An opaque raster image token. -/
abbrev Image : Type := Nat

/-- Python `img.copy()`: an equal raster. -/
def Image.copy (img : Image) : Image := img

/-- The two confidence-adjustment operator commands
(`+`/`=` and `-`/`_` keys in both loop scripts). -/
inductive ConfCmd where
  | inc
  | dec
  deriving DecidableEq

/-- One confidence command applied to the threshold, exactly as in
`live_detection.py` lines 179-184 and `video_detection_live.py` lines 189-195:
`confidence_th = min(1.0, confidence_th + 0.05)` respectively
`confidence_th = max(0.0, confidence_th - 0.05)`. -/
def applyConfCmd (c : ℚ) : ConfCmd → ℚ
  | ConfCmd.inc => min 1 (c + 1/20)
  | ConfCmd.dec => max 0 (c - 1/20)

/-- A sequence of confidence commands applied in order. -/
def applyConfCmds (c : ℚ) (cmds : List ConfCmd) : ℚ :=
  cmds.foldl applyConfCmd c

/-- Any single command keeps the threshold inside `[0,1]`. -/
theorem applyConfCmd_mem_unitInterval (c : ℚ) (h0 : 0 ≤ c) (h1 : c ≤ 1)
    (cmd : ConfCmd) : 0 ≤ applyConfCmd c cmd ∧ applyConfCmd c cmd ≤ 1 := by
  cases cmd with
  | inc =>
      constructor
      · exact le_min (by norm_num) (by linarith)
      · exact min_le_left _ _
  | dec =>
      constructor
      · exact le_max_left _ _
      · exact max_le (by norm_num) (by linarith)

/-- Any sequence of commands keeps the threshold inside `[0,1]`. -/
theorem applyConfCmds_mem_unitInterval (cmds : List ConfCmd) (c : ℚ)
    (h0 : 0 ≤ c) (h1 : c ≤ 1) :
    0 ≤ applyConfCmds c cmds ∧ applyConfCmds c cmds ≤ 1 := by
  induction cmds generalizing c with
  | nil => exact ⟨h0, h1⟩
  | cons cmd rest ih =>
      have hstep := applyConfCmd_mem_unitInterval c h0 h1 cmd
      simpa [applyConfCmds, List.foldl] using
        ih (applyConfCmd c cmd) hstep.1 hstep.2

/-- Claim C1, counterexample: `0.97` is a legitimate loop-state threshold
(the replay variant accepts any CLI confidence in `[0,1]`, and `0 ≤ 0.97 ≤ 1`),
it is not at the upper boundary, yet an increase command moves it by
`0.03`, not by `0.05`: the code clamps whenever the step would cross the
boundary, not only when already at it. -/
theorem C1_counterexample :
    (0:ℚ) ≤ 97/100 ∧ (97/100:ℚ) ≤ 1 ∧ (97/100:ℚ) ≠ 1 ∧
    applyConfCmd (97/100) ConfCmd.inc = 1 ∧
    applyConfCmd (97/100) ConfCmd.inc - 97/100 ≠ 1/20 := by
  refine ⟨by norm_num, by norm_num, by norm_num, ?_, ?_⟩ <;>
    norm_num [applyConfCmd, min_def]

/-- Claim C1 (amended): for every sequence of increase/decrease-confidence
commands applied to a loop-state threshold in `[0,1]`, the threshold stays in
`[0,1]` after each command, and each command changes it by exactly `+0.05`
(increase) or `-0.05` (decrease) except when the step would cross the boundary
being pushed against, where the result is clamped to that boundary (`1` or `0`)
and never errors. -/
theorem C1_confidence_clamped (c : ℚ) (h0 : 0 ≤ c) (h1 : c ≤ 1) :
    (∀ cmds : List ConfCmd,
      0 ≤ applyConfCmds c cmds ∧ applyConfCmds c cmds ≤ 1) ∧
    (c + 1/20 ≤ 1 → applyConfCmd c ConfCmd.inc = c + 1/20) ∧
    (1 < c + 1/20 → applyConfCmd c ConfCmd.inc = 1) ∧
    (0 ≤ c - 1/20 → applyConfCmd c ConfCmd.dec = c - 1/20) ∧
    (c - 1/20 < 0 → applyConfCmd c ConfCmd.dec = 0) := by
  refine ⟨fun cmds => applyConfCmds_mem_unitInterval cmds c h0 h1,
    fun h => ?_, fun h => ?_, fun h => ?_, fun h => ?_⟩
  · exact min_eq_right h
  · exact min_eq_left (le_of_lt h)
  · exact max_eq_right h
  · exact max_eq_left (le_of_lt h)

/-- Witness for C1: the amended theorem applied at the concrete initial
threshold `0.5` and the command sequence `[inc, dec]`. -/
theorem C1_witness :
    0 ≤ applyConfCmds (1/2) [ConfCmd.inc, ConfCmd.dec] ∧
    applyConfCmds (1/2) [ConfCmd.inc, ConfCmd.dec] ≤ 1 :=
  (C1_confidence_clamped (1/2) (by norm_num) (by norm_num)).1
    [ConfCmd.inc, ConfCmd.dec]

/-- Claim C8: starting from threshold `0.5`, three consecutive decrease
commands yield exactly `0.35`, and twenty increase commands thereafter yield
exactly `1.0`, clamped, never above. -/
theorem C8_scenario :
    applyConfCmds (1/2) (List.replicate 3 ConfCmd.dec) = 7/20 ∧
    applyConfCmds (1/2)
      (List.replicate 3 ConfCmd.dec ++ List.replicate 20 ConfCmd.inc) = 1 := by
  constructor <;>
    norm_num [applyConfCmds, applyConfCmd, List.replicate, min_def, max_def]

/-- Run-scoped loop state of `live_detection` (lines 60-63):
`frame_count`, `total_crack`, `confidence_th`, `fullscreen`. -/
structure LoopState where
  frameCount : Nat
  totalCrack : Nat
  confidence : ℚ
  fullscreen : Bool
  deriving DecidableEq

/-- Initial loop state of `live_detection`:
`frame_count = 0`, `fullscreen = False`, `confidence_th = 0.5`,
`total_crack = 0`. -/
def initState : LoopState :=
  { frameCount := 0, totalCrack := 0, confidence := 1/2, fullscreen := false }

/-- Outcome of the call `detector.detect(img, conf)` as seen by the loop:
either a result dict carrying `anomaly_count` and `image_annotated`, or a
raised exception. -/
inductive DetOutcome where
  | ok (count : Nat) (annotated : Image)
  | exn
  deriving DecidableEq

/-- The key read by `cv2.waitKey` on a tick, bucketed into the commands the
loop dispatches on (lines 169-184 of `live_detection.py`); `idle` is any
unmapped key or no key. -/
inductive Key where
  | quit
  | save
  | fullscreen
  | incConf
  | decConf
  | idle
  deriving DecidableEq

/-- The environment's behaviour on one loop iteration: what
`drone.capture_image()` returns, what the detector call would do if invoked,
and what key the operator pressed. -/
structure Tick where
  cap : Option Image
  det : DetOutcome
  key : Key
  deriving DecidableEq

/-- Observable externally-visible actions of the scripts, in program order. -/
inductive Act where
  | connectCmd
  | enableApiCmd
  | armCmd
  | getStateCmd
  | detectorInit
  | takeoffCmd
  | moveOnPath
  | joinMoveOnPath
  | captureCmd
  | detectCmd (img : Image) (conf : ℚ)
  | renderCmd (base : Image)
  | saveFrame
  | destroyWindows
  | landCmd
  | disarmCmd
  | disconnect
  deriving DecidableEq

/-- The annotation base used for the overlay: the detector's annotated image
on success, a copy of the raw frame on a detector exception
(`img_annotated = img.copy()`, line 116). -/
def annotBase (img : Image) : DetOutcome → Image
  | DetOutcome.ok _ ann => ann
  | DetOutcome.exn => img.copy

/-- State after one iteration of the `while True` body of `live_detection`
(lines 95-184): a capture miss (`img is None`) executes `continue`, touching
nothing; otherwise `frame_count` is incremented, a successful detection adds
`anomaly_count` to `total_crack` (an exception adds nothing), and the polled
key may toggle fullscreen or adjust the confidence threshold. -/
def stepState (s : LoopState) (t : Tick) : LoopState :=
  match t.cap with
  | none => s
  | some _ =>
    let s1 := { s with
      frameCount := s.frameCount + 1,
      totalCrack := s.totalCrack +
        (match t.det with
         | DetOutcome.ok n _ => n
         | DetOutcome.exn => 0) }
    match t.key with
    | Key.fullscreen => { s1 with fullscreen := !s1.fullscreen }
    | Key.incConf => { s1 with confidence := applyConfCmd s1.confidence ConfCmd.inc }
    | Key.decConf => { s1 with confidence := applyConfCmd s1.confidence ConfCmd.dec }
    | _ => s1

/-- Actions emitted by one iteration: the capture attempt always happens;
on a miss the `continue` skips everything else; otherwise the detector is
invoked with the current threshold, the overlay is rendered from the
annotation base, and a save command writes the current overlay. -/
def stepActions (s : LoopState) (t : Tick) : List Act :=
  match t.cap with
  | none => [Act.captureCmd]
  | some img =>
    [Act.captureCmd, Act.detectCmd img s.confidence,
     Act.renderCmd (annotBase img t.det)] ++
    (match t.key with
     | Key.save => [Act.saveFrame]
     | _ => [])

/-- Whether the iteration executes `break`: only when a frame was acquired
(a capture miss `continue`s before the key poll) and the key is `q`. -/
def stepQuits (t : Tick) : Bool :=
  match t.cap, t.key with
  | some _, Key.quit => true
  | _, _ => false

/-- The loop state after consuming a list of ticks, stopping after the first
quitting tick. -/
def runState (s : LoopState) : List Tick → LoopState
  | [] => s
  | t :: ts =>
    if stepQuits t then stepState s t else runState (stepState s t) ts

/-- The actions emitted while consuming a list of ticks, stopping after the
first quitting tick. -/
def runActions (s : LoopState) : List Tick → List Act
  | [] => []
  | t :: ts =>
    stepActions s t ++
      (if stepQuits t then [] else runActions (stepState s t) ts)

/-- The ticks the loop actually executes: the given list cut just after the
first quitting tick. -/
def processed : List Tick → List Tick
  | [] => []
  | t :: ts => t :: (if stepQuits t then [] else processed ts)

/-- The detector-reported anomaly contribution of one executed tick:
the reported count on a successful capture and detection, `0` on a capture
miss or a detector exception. -/
def tickAnomalies (t : Tick) : Nat :=
  match t.cap, t.det with
  | some _, DetOutcome.ok n _ => n
  | _, _ => 0

/-- `stepState` adds exactly `1` to `frame_count` when a frame was acquired
and `0` on a capture miss, whatever the detector and key do. -/
theorem stepState_frameCount (s : LoopState) (t : Tick) :
    (stepState s t).frameCount =
      s.frameCount + (if t.cap.isSome then 1 else 0) := by
  obtain ⟨cap, det, key⟩ := t
  cases cap <;> cases key <;> simp [stepState]

/-- `stepState` adds exactly the tick's anomaly contribution to
`total_crack`. -/
theorem stepState_totalCrack (s : LoopState) (t : Tick) :
    (stepState s t).totalCrack = s.totalCrack + tickAnomalies t := by
  obtain ⟨cap, det, key⟩ := t
  cases cap <;> cases det <;> cases key <;> simp [stepState, tickAnomalies]

/-- Claim C2: on a tick whose frame acquisition yields no frame, the rest of
the tick is skipped: the loop state (in particular `frame_count` and
`total_crack`) is unchanged, the only emitted action is the capture attempt
(the detector is never invoked), and the loop does not terminate but
re-enters acquisition. -/
theorem C2_capture_miss (s : LoopState) (t : Tick) (h : t.cap = none) :
    stepState s t = s ∧
    stepActions s t = [Act.captureCmd] ∧
    (∀ img conf, Act.detectCmd img conf ∉ stepActions s t) ∧
    stepQuits t = false := by
  obtain ⟨cap, det, key⟩ := t
  simp only at h
  subst h
  refine ⟨rfl, rfl, ?_, rfl⟩
  intro img conf hmem
  simp [stepActions] at hmem

/-- Witness for C2: the capture-miss theorem at the initial state and a
concrete miss tick. -/
theorem C2_witness :
    stepState initState ⟨none, DetOutcome.exn, Key.idle⟩ = initState ∧
    stepActions initState ⟨none, DetOutcome.exn, Key.idle⟩ = [Act.captureCmd] ∧
    (∀ img conf, Act.detectCmd img conf ∉
      stepActions initState ⟨none, DetOutcome.exn, Key.idle⟩) ∧
    stepQuits ⟨none, DetOutcome.exn, Key.idle⟩ = false :=
  C2_capture_miss initState ⟨none, DetOutcome.exn, Key.idle⟩ rfl

/-- Claim C3: on a tick where the frame was acquired but the detector call
raises, `frame_count` is still incremented, `total_crack` receives exactly
`0`, the overlay is rendered from (a copy of) the raw captured frame, and
termination is decided exactly as on a successful tick — only by an operator
quit, never by the exception. -/
theorem C3_detector_exception (s : LoopState) (t : Tick) (img : Image)
    (hc : t.cap = some img) (hd : t.det = DetOutcome.exn) :
    (stepState s t).frameCount = s.frameCount + 1 ∧
    (stepState s t).totalCrack = s.totalCrack + 0 ∧
    annotBase img t.det = Image.copy img ∧
    Act.renderCmd (Image.copy img) ∈ stepActions s t ∧
    (t.key ≠ Key.quit → stepQuits t = false) := by
  obtain ⟨cap, det, key⟩ := t
  simp only at hc hd
  subst hc
  subst hd
  refine ⟨?_, ?_, rfl, ?_, ?_⟩
  · simp [stepState_frameCount]
  · simp [stepState_totalCrack, tickAnomalies]
  · cases key <;> simp [stepActions, annotBase]
  · intro hk
    cases key <;> simp_all [stepQuits]

/-- Witness for C3: the detector-exception theorem at the initial state and a
concrete tick with an acquired frame and a raised detection. -/
theorem C3_witness :
    (stepState initState ⟨some 7, DetOutcome.exn, Key.idle⟩).frameCount =
      initState.frameCount + 1 ∧
    (stepState initState ⟨some 7, DetOutcome.exn, Key.idle⟩).totalCrack =
      initState.totalCrack + 0 ∧
    annotBase 7 (Tick.mk (some 7) DetOutcome.exn Key.idle).det = Image.copy 7 ∧
    Act.renderCmd (Image.copy 7) ∈
      stepActions initState ⟨some 7, DetOutcome.exn, Key.idle⟩ ∧
    ((Tick.mk (some 7) DetOutcome.exn Key.idle).key ≠ Key.quit →
      stepQuits ⟨some 7, DetOutcome.exn, Key.idle⟩ = false) :=
  C3_detector_exception initState ⟨some 7, DetOutcome.exn, Key.idle⟩ 7 rfl rfl

/-- Claim C4: after any run of the loop, `frame_count` has grown by exactly
the number of executed ticks that acquired a frame, and `total_crack` has
grown by exactly the sum of the detector-reported anomaly counts of the
executed ticks, failed ticks contributing `0`. -/
theorem C4_counters (s : LoopState) (ts : List Tick) :
    (runState s ts).frameCount =
      s.frameCount + (processed ts).countP (fun t => t.cap.isSome) ∧
    (runState s ts).totalCrack =
      s.totalCrack + ((processed ts).map tickAnomalies).sum := by
  induction ts generalizing s with
  | nil => simp [runState, processed]
  | cons t ts ih =>
    cases hq : stepQuits t with
    | true =>
      simp [runState, processed, hq, stepState_frameCount, stepState_totalCrack,
        List.countP_cons]
    | false =>
      obtain ⟨ihf, ihc⟩ := ih (stepState s t)
      refine ⟨?_, ?_⟩ <;>
        simp [runState, processed, hq, ihf, ihc, stepState_frameCount,
          stepState_totalCrack, List.countP_cons] <;>
        omega

/-- A detection box as produced by the model (`box.xyxy[0]`, `box.conf[0]`). -/
structure Box where
  x1 : Int
  y1 : Int
  x2 : Int
  y2 : Int
  conf : ℚ
  deriving DecidableEq

/-- A successful raw inference: the detected boxes and the plotted annotated
image (`result.plot()`). -/
structure InferenceOutput where
  boxes : List Box
  plotted : Image

/-- The behaviour of a loaded model on one call: an inference output, or
`none` when the call raises. -/
def ModelFun : Type := Image → ℚ → Option InferenceOutput

/-- The `crack_info` dict built per box (crack_detector.py lines 96-102). -/
structure CrackInfo where
  box : Int × Int × Int × Int
  confidence : ℚ
  width : Int
  height : Int
  area : Int
  deriving DecidableEq

/-- Extraction of one box into a `crack_info` entry. -/
def crackOfBox (b : Box) : CrackInfo :=
  { box := (b.x1, b.y1, b.x2, b.y2),
    confidence := b.conf,
    width := b.x2 - b.x1,
    height := b.y2 - b.y1,
    area := (b.x2 - b.x1) * (b.y2 - b.y1) }

/-- The result dict returned by `TrainedCrackDetector.detect`. -/
structure DetectResult where
  anomaly_count : Nat
  image_annotated : Image
  cracks : List CrackInfo
  confidence : ℚ

/-- `TrainedCrackDetector.detect` (crack_detector.py lines 65-121): with no
loaded model (`self.model is None`) it returns the zero-detection result with
a copy of the input image; with a loaded model it returns the inference
result, and if the inference raises, the surrounding `try/except` returns the
same zero-detection result.  The function is total: no exception escapes. -/
def TrainedCrackDetector.detect (model : Option ModelFun) (image : Image)
    (conf : ℚ) : DetectResult :=
  match model with
  | none =>
    { anomaly_count := 0, image_annotated := Image.copy image,
      cracks := [], confidence := conf }
  | some m =>
    match m image conf with
    | none =>
      { anomaly_count := 0, image_annotated := Image.copy image,
        cracks := [], confidence := conf }
    | some r =>
      { anomaly_count := r.boxes.length, image_annotated := r.plotted,
        cracks := r.boxes.map crackOfBox, confidence := conf }

/-- Claim C5: `detect` never raises past its boundary (it is a total
function), and every internal failure — an unloaded model or a raised
inference — yields anomaly count `0`, an empty detection list, the input
frame unmodified (`Image.copy image = image`) as the annotated image, and
the confidence value that was passed in. -/
theorem C5_detect_degrades (model : Option ModelFun) (image : Image) (conf : ℚ)
    (hfail : model = none ∨ ∃ m, model = some m ∧ m image conf = none) :
    TrainedCrackDetector.detect model image conf =
      { anomaly_count := 0, image_annotated := image,
        cracks := [], confidence := conf } ∧
    Image.copy image = image := by
  rcases hfail with h | ⟨m, hm, hraise⟩
  · subst h
    exact ⟨rfl, rfl⟩
  · subst hm
    refine ⟨?_, rfl⟩
    simp [TrainedCrackDetector.detect, hraise, Image.copy]

/-- Witness for C5: the degradation theorem at a model whose inference call
raises, on a concrete image and confidence. -/
theorem C5_witness :
    TrainedCrackDetector.detect (some (fun _ _ => none)) 3 (2/5) =
      { anomaly_count := 0, image_annotated := 3,
        cracks := [], confidence := 2/5 } ∧
    Image.copy 3 = 3 :=
  C5_detect_degrades (some (fun _ _ => none)) 3 (2/5)
    (Or.inr ⟨fun _ _ => none, rfl, rfl⟩)

/-- Which external calls of the mission succeed.  Each flag tells whether the
corresponding vehicle or detector call succeeds (`true`) or fails/raises
(`false`); the per-tick capture/detector/key behaviour lives in `Tick`. -/
structure Env where
  connectOk : Bool
  apiOk : Bool
  armOk : Bool
  stateOk : Bool
  detectorOk : Bool
  takeoffOk : Bool
  landOk : Bool
  deriving DecidableEq

/-- Whether every bootstrap step succeeds, so that the perception loop is
entered. -/
def bootstrapOk (e : Env) : Bool :=
  e.connectOk && e.apiOk && e.armOk && e.stateOk && e.detectorOk && e.takeoffOk

/-- Actions of the bootstrap phase of `live_detection` (lines 21-92), in
source order: connect; enable API control; arm; read the vehicle state;
initialize the detector (emitted only when the load succeeds); take off; then
issue the non-blocking `moveOnPathAsync` with no `join`.  A failing `connect`
returns at once without calling `disconnect`; every later failure calls
`drone.disconnect()` and returns. -/
def bootstrapActions (e : Env) : List Act :=
  [Act.connectCmd] ++
  (if !e.connectOk then [] else
    [Act.enableApiCmd] ++
    (if !e.apiOk then [Act.disconnect] else
      [Act.armCmd] ++
      (if !e.armOk then [Act.disconnect] else
        [Act.getStateCmd] ++
        (if !e.stateOk then [Act.disconnect] else
          (if !e.detectorOk then [Act.disconnect] else
            [Act.detectorInit, Act.takeoffCmd] ++
            (if !e.takeoffOk then [Act.disconnect] else
              [Act.moveOnPath]))))))

/-- Actions of the `finally` block of `live_detection` (lines 192-195):
`cv2.destroyAllWindows()`, then `drone.land()` — which runs
`landAsync().join()` and only on its success reaches `self.disarm()`, any
exception being caught inside `land` — then `drone.disconnect()`,
unconditionally. -/
def cleanupActions (landOk : Bool) : List Act :=
  [Act.destroyWindows, Act.landCmd] ++
  (if landOk then [Act.disarmCmd] else []) ++
  [Act.disconnect]

/-- The complete observable action trace of `live_detection`.  `ticks` is the
sequence of loop iterations actually executed: the loop stops early at an
operator quit tick, and otherwise ends when the iteration stream is cut by a
`KeyboardInterrupt` or an unhandled exception in the body — in every case the
`finally` cleanup follows.  A failed bootstrap never enters the loop. -/
def liveDetection (e : Env) (ticks : List Tick) : List Act :=
  if bootstrapOk e then
    bootstrapActions e ++ runActions initState ticks ++ cleanupActions e.landOk
  else bootstrapActions e

/-- Claim C6, counterexample: when `landAsync().join()` raises during
cleanup, `land`'s internal `except` catches it before `disarm` is reached, so
the emitted cleanup is `destroyWindows, land, disconnect` — not the claimed
unconditional `destroyWindows, land, disarm, disconnect` — although the
disconnect does still happen. -/
theorem C6_counterexample :
    cleanupActions false =
      [Act.destroyWindows, Act.landCmd, Act.disconnect] ∧
    cleanupActions false ≠
      [Act.destroyWindows, Act.landCmd, Act.disarmCmd, Act.disconnect] ∧
    Act.disarmCmd ∉
      liveDetection (Env.mk true true true true true true false)
        [⟨some 0, DetOutcome.ok 0 0, Key.quit⟩] ∧
    Act.disconnect ∈
      liveDetection (Env.mk true true true true true true false)
        [⟨some 0, DetOutcome.ok 0 0, Key.quit⟩] := by
  refine ⟨rfl, by simp [cleanupActions], ?_, ?_⟩ <;>
    simp [liveDetection, bootstrapOk, bootstrapActions, cleanupActions,
      runActions, stepActions, stepQuits, initState]

/-- Claim C6 (amended): whenever the perception loop terminates — operator
quit, keyboard interrupt, or an unhandled exception in the body — the trace
ends with the cleanup sequence: release display resources, land (blocking),
disarm (only if the landing call did not fault), disconnect, in that order;
a fault during landing skips the disarm but never prevents the disconnect. -/
theorem C6_cleanup_order (e : Env) (ticks : List Tick)
    (hb : bootstrapOk e = true) :
    (∃ pre, liveDetection e ticks = pre ++ cleanupActions e.landOk) ∧
    cleanupActions true =
      [Act.destroyWindows, Act.landCmd, Act.disarmCmd, Act.disconnect] ∧
    cleanupActions false =
      [Act.destroyWindows, Act.landCmd, Act.disconnect] ∧
    (∀ b : Bool, Act.disconnect ∈ cleanupActions b) := by
  refine ⟨⟨bootstrapActions e ++ runActions initState ticks, ?_⟩, rfl, rfl, ?_⟩
  · simp [liveDetection, hb]
  · intro b
    cases b <;> simp [cleanupActions]

/-- Witness for C6: the cleanup-order theorem at a concrete all-succeeding
environment and a single quit tick. -/
theorem C6_witness :
    (∃ pre, liveDetection (Env.mk true true true true true true true)
        [⟨some 0, DetOutcome.ok 0 0, Key.quit⟩] =
      pre ++ cleanupActions (Env.mk true true true true true true true).landOk) ∧
    cleanupActions true =
      [Act.destroyWindows, Act.landCmd, Act.disarmCmd, Act.disconnect] ∧
    cleanupActions false =
      [Act.destroyWindows, Act.landCmd, Act.disconnect] ∧
    (∀ b : Bool, Act.disconnect ∈ cleanupActions b) :=
  C6_cleanup_order (Env.mk true true true true true true true)
    [⟨some 0, DetOutcome.ok 0 0, Key.quit⟩] rfl

/-- Claim C7, counterexample: the detector is initialized at line 51 of
`live_detection.py`, before the takeoff at line 67, so on a takeoff failure
detector resources have already been initialized; and a failing `connect`
returns at line 25 without any `disconnect` call. -/
theorem C7_counterexample :
    Act.detectorInit ∈
      bootstrapActions (Env.mk true true true true true false true) ∧
    Act.disconnect ∈
      bootstrapActions (Env.mk true true true true true false true) ∧
    Act.disconnect ∉ bootstrapActions (Env.mk false true true true true true true) ∧
    bootstrapActions (Env.mk false true true true true true true) =
      [Act.connectCmd] := by
  refine ⟨?_, ?_, ?_, rfl⟩ <;> simp [bootstrapActions]

/-- Claim C7 (amended): every failing bootstrap step (connect, enable API
control, arm, state read, or takeoff) aborts the mission — the perception
loop is never entered and no path command is issued; failures after a
successful connect disconnect the vehicle, while a connect failure returns
immediately without a disconnect call; at any failure up to and including
detector loading no detector resources have been initialized, but a takeoff
failure happens after detector initialization. -/
theorem C7_bootstrap_abort (e : Env) (ticks : List Tick)
    (hb : bootstrapOk e = false) :
    liveDetection e ticks = bootstrapActions e ∧
    Act.moveOnPath ∉ bootstrapActions e ∧
    Act.captureCmd ∉ bootstrapActions e ∧
    (e.connectOk = false → bootstrapActions e = [Act.connectCmd]) ∧
    (e.connectOk = true → Act.disconnect ∈ bootstrapActions e) ∧
    ((e.connectOk && e.apiOk && e.armOk && e.stateOk && e.detectorOk) = false →
      Act.detectorInit ∉ bootstrapActions e) ∧
    (bootstrapOk (Env.mk e.connectOk e.apiOk e.armOk e.stateOk e.detectorOk
        true e.landOk) = true → e.takeoffOk = false →
      Act.detectorInit ∈ bootstrapActions e) := by
  obtain ⟨c, a, r, st, d, tk, l⟩ := e
  simp only [bootstrapOk] at hb
  cases c <;> cases a <;> cases r <;> cases st <;> cases d <;> cases tk <;>
    simp_all [liveDetection, bootstrapOk, bootstrapActions]

/-- Witness for C7: the bootstrap-abort theorem at the concrete environment
where only takeoff fails. -/
theorem C7_witness :
    liveDetection (Env.mk true true true true true false true) [] =
      bootstrapActions (Env.mk true true true true true false true) ∧
    Act.moveOnPath ∉ bootstrapActions (Env.mk true true true true true false true) ∧
    Act.captureCmd ∉ bootstrapActions (Env.mk true true true true true false true) ∧
    ((Env.mk true true true true true false true).connectOk = false →
      bootstrapActions (Env.mk true true true true true false true) =
        [Act.connectCmd]) ∧
    ((Env.mk true true true true true false true).connectOk = true →
      Act.disconnect ∈ bootstrapActions (Env.mk true true true true true false true)) ∧
    (((Env.mk true true true true true false true).connectOk &&
        (Env.mk true true true true true false true).apiOk &&
        (Env.mk true true true true true false true).armOk &&
        (Env.mk true true true true true false true).stateOk &&
        (Env.mk true true true true true false true).detectorOk) = false →
      Act.detectorInit ∉
        bootstrapActions (Env.mk true true true true true false true)) ∧
    (bootstrapOk (Env.mk true true true true true true true) = true →
      (Env.mk true true true true true false true).takeoffOk = false →
      Act.detectorInit ∈
        bootstrapActions (Env.mk true true true true true false true)) :=
  C7_bootstrap_abort (Env.mk true true true true true false true) [] rfl

/-- No loop iteration ever issues a path command or a join of one. -/
theorem pathCmds_not_mem_stepActions (s : LoopState) (t : Tick) :
    Act.moveOnPath ∉ stepActions s t ∧
    Act.joinMoveOnPath ∉ stepActions s t := by
  obtain ⟨cap, det, key⟩ := t
  cases cap <;> cases key <;> simp [stepActions]

/-- No run of the loop ever issues a path command or a join of one. -/
theorem pathCmds_not_mem_runActions (ts : List Tick) (s : LoopState) :
    Act.moveOnPath ∉ runActions s ts ∧
    Act.joinMoveOnPath ∉ runActions s ts := by
  induction ts generalizing s with
  | nil => simp [runActions]
  | cons t ts ih =>
    have hstep := pathCmds_not_mem_stepActions s t
    have hrest := ih (stepState s t)
    cases hq : stepQuits t <;>
      simp [runActions, hq, hstep.1, hstep.2, hrest.1, hrest.2]

/-- The cleanup never issues a path command or a join of one. -/
theorem pathCmds_not_mem_cleanup (b : Bool) :
    Act.moveOnPath ∉ cleanupActions b ∧
    Act.joinMoveOnPath ∉ cleanupActions b := by
  cases b <;> simp [cleanupActions]

/-- A successful bootstrap emits exactly the seven setup actions, ending with
the non-blocking path command. -/
theorem bootstrapActions_of_ok (e : Env) (hb : bootstrapOk e = true) :
    bootstrapActions e =
      [Act.connectCmd, Act.enableApiCmd, Act.armCmd, Act.getStateCmd,
       Act.detectorInit, Act.takeoffCmd, Act.moveOnPath] := by
  obtain ⟨c, a, r, st, d, tk, l⟩ := e
  simp only [bootstrapOk, Bool.and_eq_true] at hb
  obtain ⟨⟨⟨⟨⟨hc, ha⟩, hr⟩, hst⟩, hd⟩, htk⟩ := hb
  subst hc
  subst ha
  subst hr
  subst hst
  subst hd
  subst htk
  rfl

/-- Every loop iteration's first action is the frame-capture attempt. -/
theorem stepActions_first (s : LoopState) (t : Tick) :
    ∃ rest, stepActions s t = Act.captureCmd :: rest := by
  obtain ⟨cap, det, key⟩ := t
  cases cap <;> exact ⟨_, rfl⟩

/-- Claim C9: when the bootstrap succeeds, the trace issues the
path-following command exactly once, never issues a join of it (the
`moveOnPathAsync` future is abandoned, unlike the joined variant in
`fly_waypoint_mission`), and the very next action is the first frame
acquisition of the perception loop — flight and frame processing proceed
concurrently. -/
theorem C9_path_fire_and_forget (e : Env) (t : Tick) (ts : List Tick)
    (hb : bootstrapOk e = true) :
    (liveDetection e (t :: ts)).count Act.moveOnPath = 1 ∧
    Act.joinMoveOnPath ∉ liveDetection e (t :: ts) ∧
    (∃ post, liveDetection e (t :: ts) =
      [Act.connectCmd, Act.enableApiCmd, Act.armCmd, Act.getStateCmd,
       Act.detectorInit, Act.takeoffCmd, Act.moveOnPath, Act.captureCmd]
        ++ post) := by
  have hboot := bootstrapActions_of_ok e hb
  have hrun := pathCmds_not_mem_runActions (t :: ts) initState
  have hclean := pathCmds_not_mem_cleanup e.landOk
  refine ⟨?_, ?_, ?_⟩
  · rw [liveDetection, if_pos hb, hboot]
    rw [List.count_append, List.count_append]
    rw [List.count_eq_zero.mpr hrun.1, List.count_eq_zero.mpr hclean.1]
    rfl
  · rw [liveDetection, if_pos hb, hboot]
    intro hmem
    rcases List.mem_append.mp hmem with hmem' | hc
    · rcases List.mem_append.mp hmem' with hb' | hr
      · simp at hb'
      · exact hrun.2 hr
    · exact hclean.2 hc
  · obtain ⟨rest, hstep⟩ := stepActions_first initState t
    rw [liveDetection, if_pos hb, hboot]
    refine ⟨(rest ++ if stepQuits t then []
      else runActions (stepState initState t) ts) ++ cleanupActions e.landOk, ?_⟩
    rw [runActions, hstep]
    simp

/-- Witness for C9: the fire-and-forget theorem at a concrete all-succeeding
environment and a single-tick loop. -/
theorem C9_witness :
    (liveDetection (Env.mk true true true true true true true)
      [⟨some 0, DetOutcome.ok 0 0, Key.quit⟩]).count Act.moveOnPath = 1 ∧
    Act.joinMoveOnPath ∉ liveDetection (Env.mk true true true true true true true)
      [⟨some 0, DetOutcome.ok 0 0, Key.quit⟩] ∧
    (∃ post, liveDetection (Env.mk true true true true true true true)
        [⟨some 0, DetOutcome.ok 0 0, Key.quit⟩] =
      [Act.connectCmd, Act.enableApiCmd, Act.armCmd, Act.getStateCmd,
       Act.detectorInit, Act.takeoffCmd, Act.moveOnPath, Act.captureCmd]
        ++ post) :=
  C9_path_fire_and_forget (Env.mk true true true true true true true)
    ⟨some 0, DetOutcome.ok 0 0, Key.quit⟩ [] rfl

/-- The raw camera response as `capture_image` sees it: the
`simGetImage` transport call raising, returning `None`, or returning a byte
buffer. -/
inductive SimImageResponse where
  | raised
  | absent
  | bytes (b : List Nat)
  deriving DecidableEq

/-- `DroneController.capture_image` (drone_controller.py lines 178-204),
with `decode` standing for the opaque `cv2.imdecode`, which returns `none`
when the bytes do not decode.  An absent or empty response returns `None`; a
decode failure returns `None`; a raised transport call is caught and returns
`None`; otherwise the decoded frame is returned.  The function is total. -/
def capture_image (decode : List Nat → Option Image) :
    SimImageResponse → Option Image
  | SimImageResponse.raised => none
  | SimImageResponse.absent => none
  | SimImageResponse.bytes b => if b.length = 0 then none else decode b

/-- Claim C10: `capture_image` is total — for every decode function and
camera response it returns either a decoded frame or `none`, and it returns
`none` (never raises) when the transport call raises, when the raw response
is absent or empty, and when the bytes fail to decode; when a nonempty
response decodes, the decoded frame is returned. -/
theorem C10_capture_total (decode : List Nat → Option Image) :
    capture_image decode SimImageResponse.raised = none ∧
    capture_image decode SimImageResponse.absent = none ∧
    capture_image decode (SimImageResponse.bytes []) = none ∧
    (∀ b : List Nat, decode b = none →
      capture_image decode (SimImageResponse.bytes b) = none) ∧
    (∀ b : List Nat, b ≠ [] → ∀ img : Image, decode b = some img →
      capture_image decode (SimImageResponse.bytes b) = some img) := by
  refine ⟨rfl, rfl, rfl, ?_, ?_⟩
  · intro b hdec
    cases b with
    | nil => rfl
    | cons x xs => simp [capture_image, hdec]
  · intro b hne img hdec
    cases b with
    | nil => exact absurd rfl hne
    | cons x xs => simp [capture_image, hdec]

/-- Witness for C10: the totality theorem at a concrete decode function,
evaluated on a raising transport, an undecodable nonempty buffer, and a
decodable one. -/
theorem C10_witness :
    capture_image (fun b => if b = [1] then some 4 else none)
      SimImageResponse.raised = none ∧
    capture_image (fun b => if b = [1] then some 4 else none)
      (SimImageResponse.bytes [2]) = none ∧
    capture_image (fun b => if b = [1] then some 4 else none)
      (SimImageResponse.bytes [1]) = some 4 :=
  ⟨(C10_capture_total (fun b => if b = [1] then some 4 else none)).1,
   (C10_capture_total (fun b => if b = [1] then some 4 else none)).2.2.2.1
     [2] (by norm_num),
   (C10_capture_total (fun b => if b = [1] then some 4 else none)).2.2.2.2
     [1] (by simp) 4 (by simp)⟩
